import Mathlib

/-!
Verification development for the painters-tape portfolio motion subsystems.

Shallow embedding of the two motion components:
* `ImageAnimation` (src/src/components/ImageAnimation.tsx): the
  visibility-gated frame player — component state `currentFrame`,
  `isAnimating`, `highResLoaded` plus the cadence interval, driven by
  intersection-observer transitions, interval ticks and image load events.
* `Model` inside `ThreeScene` (src/src/components/ThreeScene.tsx): the
  damped kinematics integrator — scroll handler, pointer-ray impulse
  handler, the one-shot setup effect and the per-render-frame integration
  step.

Machine numbers are embedded as exact rationals (`ℚ`); the decimal
literals below denote the same constants as the source.
-/

namespace PaintersTape

/-! ### Frame player state (ImageAnimation.tsx) -/

/-- Component state of one `ImageAnimation` instance: `currentFrame` and
`isAnimating` are the two `useState` cells (lines 5-6), `highResLoaded`
is the high-res reveal flag (line 7), and `timerRunning` records whether
the cadence interval of the effect at lines 41-55 is currently installed. -/
structure PlayerState where
  currentFrame : Nat
  isAnimating : Bool
  timerRunning : Bool
  highResLoaded : Bool
  deriving Repr, DecidableEq

/-- Initial component state: `useState(0)`, `useState(false)`, `useState(false)`,
and no interval installed. -/
def initialPlayerState : PlayerState :=
  { currentFrame := 0, isAnimating := false, timerRunning := false, highResLoaded := false }

/-- Embedding of `startAnimation` (lines 23-27) together with its consequence in the
interval effect (lines 41-52): when `isAnimating` flips to true the effect
installs the cadence interval. -/
def startAnimation (s : PlayerState) : PlayerState :=
  if s.isAnimating then s
  else { s with isAnimating := true, timerRunning := true }

/-- Embedding of `stopAnimation` (lines 29-34): if animating, clear the interval and set
`isAnimating` to false; otherwise do nothing. -/
def stopAnimation (s : PlayerState) : PlayerState :=
  if s.isAnimating then { s with isAnimating := false, timerRunning := false }
  else s

/-- Embedding of `resetAnimation` (lines 36-39): `setCurrentFrame(0)` then `stopAnimation()`. -/
def resetAnimation (s : PlayerState) : PlayerState :=
  stopAnimation { s with currentFrame := 0 }

/-- One firing of the cadence interval (lines 43-51), for a frame list of
length `N`: if advancing would reach `N`, stop and keep the frame;
otherwise increment the frame. Fires only while the interval is installed. -/
def intervalTick (N : Nat) (s : PlayerState) : PlayerState :=
  if s.timerRunning then
    if s.currentFrame + 1 = N then stopAnimation s
    else { s with currentFrame := s.currentFrame + 1 }
  else s

/-- External events driving one `ImageAnimation` instance: an
intersection-observer transition (lines 57-71), an interval firing, and the
high-res image `onLoad` event (line 126). -/
inductive PlayerEvent where
  | visibility (isIntersecting : Bool)
  | tick
  | highResLoad

/-- Transition function of the player: intersecting starts the animation,
not intersecting resets it, a tick advances the frame, and a high-res load
completion sets `highResLoaded` to true. -/
def playerStep (N : Nat) (s : PlayerState) : PlayerEvent → PlayerState
  | .visibility true => startAnimation s
  | .visibility false => resetAnimation s
  | .tick => intervalTick N s
  | .highResLoad => { s with highResLoaded := true }

/-- Run the player from its initial state over a list of events. -/
def runPlayer (N : Nat) (evs : List PlayerEvent) : PlayerState :=
  evs.foldl (playerStep N) initialPlayerState

/-- Props of the `ImageAnimation` component (line 4). Construction performs
no validation; an absent `msBetweenFrame` defaults to 15. -/
structure ImageAnimationProps where
  frames : List String
  msBetweenFrame : Int
  deriving DecidableEq

/-- Construction of the component's props from the call site (line 4):
`msBetweenFrame = 15` is the only defaulting; no check of the cadence or of
the frame list is performed anywhere in the component. -/
def mkImageAnimationProps (frames : List String) (msBetweenFrame : Option Int) :
    ImageAnimationProps :=
  { frames := frames, msBetweenFrame := msBetweenFrame.getD 15 }

/-! ### Kinematics integrator state (ThreeScene.tsx, `Model`) -/

/-- A triple of rationals, standing for a Three.js vector (face normals,
rotation presets). -/
structure Vec3 where
  x : ℚ
  y : ℚ
  z : ℚ
  deriving Repr, DecidableEq

/-- Constant `positionalVelocityDampingFactor` (line 24). -/
def positionalVelocityDampingFactor : ℚ := 0.91

/-- Constant `rotationalVelocityDampingFactor` (line 25). -/
def rotationalVelocityDampingFactor : ℚ := 0.97

/-- Constant `scrollDampingFactor` (line 26). -/
def scrollDampingFactor : ℚ := 0.92

/-- State of one mounted `Model` instance: the `useState` cells of lines
17-23, the model handle's y-position, rotation and uniform scale, and a
ghost counter `setupCount` recording how many times the one-shot setup
body (lines 196-202) has executed. -/
structure ModelState where
  posY : ℚ
  rotX : ℚ
  rotY : ℚ
  rotZ : ℚ
  scale : ℚ
  isSetup : Bool
  setupCount : Nat
  lastScrollY : ℚ
  direction : ℚ
  positionalVelocity : ℚ
  rotationalXVelocity : ℚ
  rotationalYVelocity : ℚ
  rotationalZVelocity : ℚ
  deriving Repr, DecidableEq

/-- Mount-time state of `Model` (lines 17-23): `isSetup = false`,
`lastScrollY = 0`, `direction = -1`, `positionalVelocity = 0.25`, all
rotational velocities 0; the loaded scene object starts unscaled at the
origin with identity rotation. -/
def initialModelState : ModelState :=
  { posY := 0, rotX := 0, rotY := 0, rotZ := 0, scale := 1,
    isSetup := false, setupCount := 0, lastScrollY := 0,
    direction := -1, positionalVelocity := 0.25,
    rotationalXVelocity := 0, rotationalYVelocity := 0, rotationalZVelocity := 0 }

/-- Embedding of `handleScroll` (lines 160-186): equal offsets set direction to 0 and
return early; otherwise direction becomes `-1` when the offset grew
(scrolled toward the bottom) and `1` when it shrank, positional velocity
becomes `|Δscroll| * 0.005`, and the offset is recorded. -/
def handleScroll (s : ModelState) (currentScrollY : ℚ) : ModelState :=
  if currentScrollY = s.lastScrollY then
    { s with direction := 0, lastScrollY := currentScrollY }
  else
    let scrollDirection : ℚ := if currentScrollY > s.lastScrollY then -1 else 1
    { s with positionalVelocity := |currentScrollY - s.lastScrollY| * 0.005,
             direction := scrollDirection,
             lastScrollY := currentScrollY }

/-- Embedding of `handleRaycastIntersection` (lines 136-157): take the first reported
intersection, if any, and add `normal.axis * 0.5` to each rotational
velocity channel; with no intersection nothing changes. -/
def handleRaycastIntersection (s : ModelState) (intersectionNormals : List Vec3) :
    ModelState :=
  match intersectionNormals with
  | [] => s
  | normal :: _ =>
    { s with rotationalXVelocity := s.rotationalXVelocity + normal.x * 0.5,
             rotationalYVelocity := s.rotationalYVelocity + normal.y * 0.5,
             rotationalZVelocity := s.rotationalZVelocity + normal.z * 0.5 }

/-- The guarded body of the `useFrame` callback (lines 218-238): integrate
positional velocity into `position.y` and damp it, integrate into
`rotation.x`, apply the rotational velocities to all three rotation axes
(reading `rotation.x` after its scroll-driven increment), and decay both
velocity kinds. The raycast at lines 211-216 computes intersections but its
impulse call is commented out, so it leaves the state unchanged. -/
def useFrameStep (s : ModelState) : ModelState :=
  let y := (s.posY + s.positionalVelocity * s.direction) * scrollDampingFactor
  let rx := s.rotX + s.positionalVelocity * 0.5 * s.direction
  let dampenDampeningFactor : ℚ := 0.1
  { s with
    posY := y,
    rotX := rx + s.rotationalXVelocity * rotationalVelocityDampingFactor * dampenDampeningFactor,
    rotY := s.rotY + s.rotationalYVelocity * rotationalVelocityDampingFactor * dampenDampeningFactor,
    rotZ := s.rotZ + s.rotationalZVelocity * rotationalVelocityDampingFactor * dampenDampeningFactor,
    positionalVelocity := s.positionalVelocity * positionalVelocityDampingFactor,
    rotationalXVelocity := s.rotationalXVelocity * rotationalVelocityDampingFactor,
    rotationalYVelocity := s.rotationalYVelocity * rotationalVelocityDampingFactor,
    rotationalZVelocity := s.rotationalZVelocity * rotationalVelocityDampingFactor }

/-- Table `initRotations` (lines 58-66): the seven hand-tuned orientation presets. -/
def initRotations : List Vec3 :=
  [⟨1.35, 0.26, -2.48⟩, ⟨0.59, 0.27, -1.05⟩, ⟨1.54, 1.14, -2.21⟩,
   ⟨1.33, 0.68, -0.79⟩, ⟨2.25, 0.13, -0.43⟩, ⟨0.41, 0.88, 1.99⟩,
   ⟨2.13, 0.99, 2.47⟩]

/-- Embedding of `adjustModelScale` (lines 81-96): the uniform scale factor is the
minimum of the width- and height-derived factors and the cap 0.8, with
divisor 550 on mobile and 800 otherwise. -/
def adjustModelScale (isMobile : Bool) (windowWidth windowHeight : ℚ) : ℚ :=
  let divisor : ℚ := if isMobile then 550 else 800
  min (min (windowWidth / divisor) (windowHeight / divisor)) 0.8

/-- The setup effect (lines 195-203): when the model handle exists and
`isSetup` is false, apply the scale, set the rotation to the preset chosen
by the (random) index, and latch `isSetup`; the smooth-shading and lighting
passes of the same body only decorate the external scene graph. The ghost
counter `setupCount` counts executions of this body. -/
def setupEffect (s : ModelState) (modelExists isMobile : Bool)
    (windowWidth windowHeight : ℚ) (presetIdx : Fin initRotations.length) : ModelState :=
  if modelExists && !s.isSetup then
    let rotation := initRotations.get presetIdx
    { s with scale := adjustModelScale isMobile windowWidth windowHeight,
             rotX := rotation.x, rotY := rotation.y, rotZ := rotation.z,
             isSetup := true, setupCount := s.setupCount + 1 }
  else s

/-- External events driving one `Model` instance: a scroll event, a pointer
event carrying the reported intersection normals, a render frame (with the
guard on the model handle existing), a run of the setup effect, and a
window resize (lines 205-208), which re-runs only the scale computation. -/
inductive ModelEvent where
  | scroll (currentScrollY : ℚ)
  | pointer (intersectionNormals : List Vec3)
  | frame (modelExists : Bool)
  | setupCheck (modelExists isMobile : Bool) (windowWidth windowHeight : ℚ)
      (presetIdx : Fin initRotations.length)
  | resize (isMobile : Bool) (windowWidth windowHeight : ℚ)

/-- Transition function of the `Model` instance. -/
def modelStep (s : ModelState) : ModelEvent → ModelState
  | .scroll y => handleScroll s y
  | .pointer ns => handleRaycastIntersection s ns
  | .frame modelExists => if modelExists then useFrameStep s else s
  | .setupCheck me im w h i => setupEffect s me im w h i
  | .resize im w h => { s with scale := adjustModelScale im w h }

/-- Run the model instance from a given state over a list of events. -/
def runModelFrom (s : ModelState) (evs : List ModelEvent) : ModelState :=
  evs.foldl modelStep s

/-- Run the model instance from its mount state over a list of events. -/
def runModel (evs : List ModelEvent) : ModelState :=
  runModelFrom initialModelState evs

/-- The concrete pre-state of the spec's scroll scenario: the recorded
offset is 100. -/
def scrollExampleState : ModelState :=
  { initialModelState with lastScrollY := 100 }

/-- The spec's sample surface-normal impulse `{x:0, y:1, z:0}`. -/
def impulseY : Vec3 := ⟨0, 1, 0⟩

lemma playerStep_timer_eq_animating (N : Nat) (s : PlayerState) (e : PlayerEvent)
    (h : s.timerRunning = s.isAnimating) :
    (playerStep N s e).timerRunning = (playerStep N s e).isAnimating := by
  cases e with
  | visibility b =>
    cases b <;>
      simp only [playerStep, startAnimation, resetAnimation, stopAnimation] <;>
      split <;> simp_all
  | tick =>
    simp only [playerStep, intervalTick]
    split
    · split
      · simp only [stopAnimation]; split <;> simp_all
      · simpa using h
    · exact h
  | highResLoad => simpa [playerStep] using h

lemma foldl_timer_eq_animating (N : Nat) (evs : List PlayerEvent) :
    ∀ s : PlayerState, s.timerRunning = s.isAnimating →
      (evs.foldl (playerStep N) s).timerRunning = (evs.foldl (playerStep N) s).isAnimating := by
  induction evs with
  | nil => intro s h; simpa using h
  | cons e evs ih =>
    intro s h
    exact ih _ (playerStep_timer_eq_animating N s e h)

/-- Claim C3: whenever the host element stops intersecting the viewport, the
cadence timer is cancelled, `isAnimating` becomes false and `currentFrame`
becomes 0, from every reachable player state. -/
theorem claim3_theorem (N : Nat) (evs : List PlayerEvent) :
    (playerStep N (runPlayer N evs) (.visibility false)).currentFrame = 0 ∧
    (playerStep N (runPlayer N evs) (.visibility false)).isAnimating = false ∧
    (playerStep N (runPlayer N evs) (.visibility false)).timerRunning = false := by
  have h := foldl_timer_eq_animating N evs initialPlayerState rfl
  simp only [runPlayer] at *
  simp only [playerStep, resetAnimation, stopAnimation]
  split <;> simp_all

lemma playerStep_frame_lt (N : Nat) (hN : 1 ≤ N) (s : PlayerState) (e : PlayerEvent)
    (h : s.currentFrame < N) : (playerStep N s e).currentFrame < N := by
  cases e with
  | visibility b =>
    cases b <;>
      simp only [playerStep, startAnimation, resetAnimation, stopAnimation] <;>
      split <;> simp_all <;> omega
  | tick =>
    simp only [playerStep, intervalTick]
    split
    · split
      · simp only [stopAnimation]; split <;> simpa
      · rename_i hne
        simp only []
        omega
    · exact h
  | highResLoad => simpa [playerStep] using h

lemma foldl_frame_lt (N : Nat) (hN : 1 ≤ N) (evs : List PlayerEvent) :
    ∀ s : PlayerState, s.currentFrame < N →
      (evs.foldl (playerStep N) s).currentFrame < N := by
  induction evs with
  | nil => intro s h; simpa using h
  | cons e evs ih =>
    intro s h
    exact ih _ (playerStep_frame_lt N hN s e h)

/-- Claim C7: for every frame list of length at least 1, the player's current
index stays within `[0, length-1]` after any sequence of start, tick and
visibility-reset transitions. -/
theorem claim7_theorem (N : Nat) (hN : 1 ≤ N) (evs : List PlayerEvent) :
    (runPlayer N evs).currentFrame ≤ N - 1 := by
  have h := foldl_frame_lt N hN evs initialPlayerState (by simpa [initialPlayerState] using hN)
  simp only [runPlayer]
  omega

/-- Witness for C7 at the frame list length 3 and a concrete event trace. -/
theorem claim7_witness :
    1 ≤ 3 ∧
      (runPlayer 3 [.visibility true, .tick, .tick, .tick, .visibility false]).currentFrame
        ≤ 3 - 1 :=
  ⟨by decide, claim7_theorem 3 (by decide) [.visibility true, .tick, .tick, .tick, .visibility false]⟩

lemma player_tick_formula (N k : Nat) (hN : 1 ≤ N) :
    (intervalTick N)^[k] (startAnimation initialPlayerState) =
      ⟨min k (N - 1), decide (k < N), decide (k < N), false⟩ := by
  induction k with
  | zero =>
    have h0 : 0 < N := hN
    simp [startAnimation, initialPlayerState, Nat.zero_min, h0]
  | succ k ih =>
    rw [Function.iterate_succ_apply', ih]
    by_cases hk : k < N
    · by_cases hk1 : k + 1 = N
      · have hmin : min k (N - 1) = k := by omega
        have hmin1 : min (k + 1) (N - 1) = k := by omega
        simp [intervalTick, stopAnimation, hmin, hmin1, hk, hk1]
        omega
      · have hmin : min k (N - 1) = k := by omega
        have hmin1 : min (k + 1) (N - 1) = k + 1 := by omega
        simp [intervalTick, stopAnimation, hmin, hmin1, hk, hk1]
        omega
    · have hk1 : ¬ (k + 1 < N) := by omega
      have hmin : min k (N - 1) = N - 1 := by omega
      have hmin1 : min (k + 1) (N - 1) = N - 1 := by omega
      simp [intervalTick, stopAnimation, hmin, hmin1, hk, hk1]

/-- Counterexample for claim C1 as stated: with a 3-frame sequence, after
becoming visible and receiving exactly N-1 = 2 ticks, the index is 2 = N-1
but `isAnimating` is still true, not false. -/
theorem claim1_counterexample :
    (runPlayer 3 [.visibility true, .tick, .tick]).currentFrame = 3 - 1 ∧
    (runPlayer 3 [.visibility true, .tick, .tick]).isAnimating ≠ false := by
  decide

/-- Claim C1 (amended): for a frame list of length N ≥ 1, after the player
becomes visible, k ticks leave `currentFrame = min k (N-1)` and
`isAnimating` true exactly while k < N: the index reaches N-1 after N-1
ticks and never moves past it or wraps, and `isAnimating` becomes false on
the N-th tick (one tick after the last frame is first shown), not after
N-1 ticks. -/
theorem claim1_theorem (N k : Nat) (hN : 1 ≤ N) :
    ((intervalTick N)^[k] (startAnimation initialPlayerState)).currentFrame = min k (N - 1) ∧
    ((intervalTick N)^[k] (startAnimation initialPlayerState)).isAnimating = decide (k < N) := by
  rw [player_tick_formula N k hN]
  exact ⟨rfl, rfl⟩

/-- Witness for C1 at N = 3, k = 3: after three ticks the index holds at 2
and the animation has stopped. -/
theorem claim1_witness :
    1 ≤ 3 ∧
      (((intervalTick 3)^[3] (startAnimation initialPlayerState)).currentFrame = min 3 (3 - 1) ∧
       ((intervalTick 3)^[3] (startAnimation initialPlayerState)).isAnimating = decide (3 < 3)) :=
  ⟨by decide, claim1_theorem 3 3 (by decide)⟩

/-- Counterexample for claim C6 as stated: with a 3-frame sequence, after the
first frame's high-res load completes and the player advances to frame 1,
`highResLoaded` is already true — frame 1 is shown without the flag having
returned to false, so there is no per-frame false-then-true cycle. -/
theorem claim6_counterexample :
    (runPlayer 3 [.visibility true, .highResLoad, .tick]).currentFrame = 1 ∧
    (runPlayer 3 [.visibility true, .highResLoad, .tick]).highResLoaded ≠ false := by
  decide

/-- Claim C6 (amended): `highResLoaded` is frame-index-agnostic — every
frame's load event sets it to true again — but no transition ever resets it
to false, so after the first load completion it stays true for the rest of
the run: a one-time latch in value, not a per-frame load-reveal cycle. -/
theorem claim6_theorem (N : Nat) (s : PlayerState) (e : PlayerEvent) :
    (playerStep N s .highResLoad).highResLoaded = true ∧
    (s.highResLoaded = true → (playerStep N s e).highResLoaded = true) := by
  refine ⟨rfl, fun h => ?_⟩
  cases e with
  | visibility b =>
    cases b <;>
      simp only [playerStep, startAnimation, resetAnimation, stopAnimation] <;>
      split <;> simp_all
  | tick =>
    simp only [playerStep, intervalTick]
    split
    · split
      · simp only [stopAnimation]; split <;> simp_all
      · simpa using h
    · exact h
  | highResLoad => rfl

/-- Witness for C6: the load event latches the flag, and a tick afterwards
keeps it true. -/
theorem claim6_witness :
    (playerStep 2 (runPlayer 2 [.visibility true, .highResLoad]) .highResLoad).highResLoaded
        = true ∧
      (playerStep 2 (runPlayer 2 [.visibility true, .highResLoad]) .tick).highResLoaded = true :=
  ⟨(claim6_theorem 2 (runPlayer 2 [.visibility true, .highResLoad]) .tick).1,
   (claim6_theorem 2 (runPlayer 2 [.visibility true, .highResLoad]) .tick).2 (by decide)⟩

/-- Claim C2: on a render frame with the model handle present, the step is
exactly: `position.y += positionalVelocity * direction` then
`position.y *= 0.92`; `rotation.x += positionalVelocity * 0.5 * direction`;
each rotation axis is set to
`rotation.axis + rotationalVelocity.axis * 0.97 * 0.1` simultaneously;
`positionalVelocity *= 0.91`; and each rotational-velocity channel is
multiplied by 0.97. -/
theorem claim2_theorem (s : ModelState) :
    modelStep s (.frame true) = useFrameStep s ∧
    (useFrameStep s).posY = (s.posY + s.positionalVelocity * s.direction) * 0.92 ∧
    (useFrameStep s).rotX
      = s.rotX + s.positionalVelocity * 0.5 * s.direction
          + s.rotationalXVelocity * 0.97 * 0.1 ∧
    (useFrameStep s).rotY = s.rotY + s.rotationalYVelocity * 0.97 * 0.1 ∧
    (useFrameStep s).rotZ = s.rotZ + s.rotationalZVelocity * 0.97 * 0.1 ∧
    (useFrameStep s).positionalVelocity = s.positionalVelocity * 0.91 ∧
    (useFrameStep s).rotationalXVelocity = s.rotationalXVelocity * 0.97 ∧
    (useFrameStep s).rotationalYVelocity = s.rotationalYVelocity * 0.97 ∧
    (useFrameStep s).rotationalZVelocity = s.rotationalZVelocity * 0.97 := by
  refine ⟨rfl, rfl, rfl, rfl, rfl, rfl, rfl, rfl, rfl⟩

/-- Counterexample for claim C4 as stated: for the offset change 100→80 the
handler sets direction to +1 (the offset shrank, `currentScrollY >
lastScrollY` is false), not -1 as the claim's scenario asserts. -/
theorem claim4_counterexample :
    (handleScroll scrollExampleState 80).direction ≠ -1 ∧
    (handleScroll scrollExampleState 80).direction = 1 := by
  norm_num [handleScroll, scrollExampleState, initialModelState]

/-- Claim C4 (amended): on a scroll event, an unchanged offset sets
direction to 0 and leaves the velocity alone; a changed offset sets
direction to -1 when the offset grew (scrolled toward the bottom) and +1
when it shrank (scrolled toward the top), sets the positional velocity to
`|Δscroll| * 0.005` and records the new offset; for the change 100→80
(toward the top) this gives direction +1 — not -1 — and velocity 0.1. -/
theorem claim4_theorem (s : ModelState) (y : ℚ) :
    (y = s.lastScrollY →
      handleScroll s y = { s with direction := 0, lastScrollY := y }) ∧
    (y ≠ s.lastScrollY →
      (handleScroll s y).direction = (if s.lastScrollY < y then -1 else 1) ∧
      (handleScroll s y).positionalVelocity = |y - s.lastScrollY| * 0.005 ∧
      (handleScroll s y).lastScrollY = y) ∧
    (handleScroll scrollExampleState 80).direction = 1 ∧
    (handleScroll scrollExampleState 80).positionalVelocity = 0.1 := by
  refine ⟨fun h => ?_, fun h => ?_, ?_, ?_⟩
  · simp [handleScroll, h]
  · simp [handleScroll, if_neg h, gt_iff_lt]
  · norm_num [handleScroll, scrollExampleState, initialModelState]
  · norm_num [handleScroll, scrollExampleState, initialModelState]

/-- Witness for C4 at the concrete scroll 0→80: the offset grew, so the
direction becomes -1, the velocity 0.4, and the offset is recorded. -/
theorem claim4_witness :
    (80 : ℚ) ≠ initialModelState.lastScrollY ∧
      ((handleScroll initialModelState 80).direction
          = (if initialModelState.lastScrollY < 80 then -1 else 1) ∧
       (handleScroll initialModelState 80).positionalVelocity
          = |(80 : ℚ) - initialModelState.lastScrollY| * 0.005 ∧
       (handleScroll initialModelState 80).lastScrollY = 80) :=
  ⟨by norm_num [initialModelState],
   (claim4_theorem initialModelState 80).2.1 (by norm_num [initialModelState])⟩

/-- Claim C5, evaluated at the failing input: constructing the player's
props with `msBetweenFrame = 0` and an empty frame list succeeds and keeps
both values unchanged — there is no rejection, clamping or validation
error anywhere in the component. -/
theorem claim5_theorem :
    mkImageAnimationProps [] (some 0) = { frames := [], msBetweenFrame := 0 } ∧
    ¬(0 < (mkImageAnimationProps [] (some 0)).msBetweenFrame) ∧
    (mkImageAnimationProps [] (some 0)).frames.length = 0 := by
  refine ⟨rfl, by decide, rfl⟩

/-- Claim C9: a reported intersection adds `normal.axis * 0.5` to each
rotational-velocity channel on top of its previous value; in particular the
impulse {x:0, y:1, z:0} applied at rest gives `rotationalYVelocity = 0.5`
immediately and `0.5 * 0.97` after one integration frame. -/
theorem claim9_theorem (s : ModelState) (normal : Vec3) (rest : List Vec3) :
    (handleRaycastIntersection s (normal :: rest)).rotationalXVelocity
        = s.rotationalXVelocity + normal.x * 0.5 ∧
    (handleRaycastIntersection s (normal :: rest)).rotationalYVelocity
        = s.rotationalYVelocity + normal.y * 0.5 ∧
    (handleRaycastIntersection s (normal :: rest)).rotationalZVelocity
        = s.rotationalZVelocity + normal.z * 0.5 ∧
    (handleRaycastIntersection initialModelState [impulseY]).rotationalYVelocity = 0.5 ∧
    (useFrameStep (handleRaycastIntersection initialModelState [impulseY])).rotationalYVelocity
        = 0.5 * 0.97 := by
  refine ⟨rfl, rfl, rfl, ?_, ?_⟩
  · norm_num [handleRaycastIntersection, initialModelState, impulseY]
  · norm_num [useFrameStep, handleRaycastIntersection, initialModelState, impulseY,
      rotationalVelocityDampingFactor]

/-- Claim C10: at mount, before any scroll or pointer event,
`positionalVelocity` is 0.25 and `direction` is -1, so the very first
integration frame already changes the model's y-position and x-rotation. -/
theorem claim10_theorem :
    initialModelState.positionalVelocity = 0.25 ∧
    initialModelState.direction = -1 ∧
    (useFrameStep initialModelState).posY ≠ initialModelState.posY ∧
    (useFrameStep initialModelState).rotX ≠ initialModelState.rotX := by
  refine ⟨rfl, rfl, ?_, ?_⟩
  · norm_num [useFrameStep, initialModelState, scrollDampingFactor]
  · norm_num [useFrameStep, initialModelState, rotationalVelocityDampingFactor]

lemma modelStep_isSetup_mono (s : ModelState) (e : ModelEvent)
    (h : s.isSetup = true) : (modelStep s e).isSetup = true := by
  cases e with
  | scroll y =>
    simp only [modelStep, handleScroll]
    split
    · exact h
    · exact h
  | pointer ns =>
    cases ns <;> simp [modelStep, handleRaycastIntersection, h]
  | frame me =>
    cases me <;> simp [modelStep, useFrameStep, h]
  | setupCheck me im w hh i =>
    simp [modelStep, setupEffect, h]
  | resize im w hh => simpa [modelStep] using h

lemma modelStep_setup_inv (s : ModelState) (e : ModelEvent)
    (h0 : s.isSetup = false → s.setupCount = 0)
    (h1 : s.isSetup = true → s.setupCount = 1) :
    ((modelStep s e).isSetup = false → (modelStep s e).setupCount = 0) ∧
    ((modelStep s e).isSetup = true → (modelStep s e).setupCount = 1) := by
  cases e with
  | scroll y =>
    simp only [modelStep, handleScroll]
    split
    · exact ⟨h0, h1⟩
    · exact ⟨h0, h1⟩
  | pointer ns =>
    cases ns <;> simp_all [modelStep, handleRaycastIntersection]
  | frame me =>
    cases me <;> simp_all [modelStep, useFrameStep]
  | setupCheck me im w hh i =>
    simp only [modelStep, setupEffect]
    split
    · rename_i hc
      simp only [Bool.and_eq_true, Bool.not_eq_eq_eq_not, Bool.not_true] at hc
      have := h0 (by simpa using hc.2)
      simp [this]
    · exact ⟨h0, h1⟩
  | resize im w hh => exact ⟨h0, h1⟩

lemma runModelFrom_setup_inv (evs : List ModelEvent) :
    ∀ s : ModelState,
      (s.isSetup = false → s.setupCount = 0) →
      (s.isSetup = true → s.setupCount = 1) →
      ((runModelFrom s evs).isSetup = false → (runModelFrom s evs).setupCount = 0) ∧
      ((runModelFrom s evs).isSetup = true → (runModelFrom s evs).setupCount = 1) := by
  induction evs with
  | nil => intro s h0 h1; exact ⟨h0, h1⟩
  | cons e evs ih =>
    intro s h0 h1
    have h := modelStep_setup_inv s e h0 h1
    exact ih _ h.1 h.2

lemma runModelFrom_isSetup_mono (evs : List ModelEvent) :
    ∀ s : ModelState, s.isSetup = true → (runModelFrom s evs).isSetup = true := by
  induction evs with
  | nil => intro s h; simpa [runModelFrom] using h
  | cons e evs ih =>
    intro s h
    exact ih _ (modelStep_isSetup_mono s e h)

/-- Claim C8: the setup pass is a one-shot latch — over any event trace the
setup body has run at most once, it has run exactly once iff `isSetup` is
latched, a setup check with the model handle present always leaves the
latch set, and once `isSetup` is true no further events ever revert it. -/
theorem claim8_theorem (evs : List ModelEvent) :
    (runModel evs).setupCount ≤ 1 ∧
    ((runModel evs).isSetup = true ↔ (runModel evs).setupCount = 1) ∧
    (∀ (im : Bool) (w h : ℚ) (i : Fin initRotations.length),
      (modelStep (runModel evs) (.setupCheck true im w h i)).isSetup = true) ∧
    (∀ more : List ModelEvent, (runModel evs).isSetup = true →
      (runModelFrom (runModel evs) more).isSetup = true) := by
  have hinv := runModelFrom_setup_inv evs initialModelState
    (fun _ => rfl) (fun h => by simp [initialModelState] at h)
  simp only [runModel] at *
  refine ⟨?_, ?_, ?_, ?_⟩
  · rcases h : (runModelFrom initialModelState evs).isSetup with _ | _
    · have := hinv.1 h; omega
    · have := hinv.2 h; omega
  · constructor
    · exact hinv.2
    · intro hc
      by_contra hfalse
      have : (runModelFrom initialModelState evs).isSetup = false := by
        simpa using hfalse
      have := hinv.1 this
      omega
  · intro im w h i
    simp only [modelStep, setupEffect]
    split
    · simp
    · rename_i hc
      simp only [Bool.true_and, Bool.and_eq_true, Bool.not_eq_eq_eq_not, Bool.not_true] at hc
      simpa using hc
  · intro more h
    exact runModelFrom_isSetup_mono more _ h

/-- Witness for C8: after one successful setup check, the count is 1, the
latch is set, and a later render frame keeps it set. -/
theorem claim8_witness :
    (runModel [.setupCheck true false 800 600 ⟨0, by decide⟩]).setupCount ≤ 1 ∧
    ((runModel [.setupCheck true false 800 600 ⟨0, by decide⟩]).isSetup = true ↔
      (runModel [.setupCheck true false 800 600 ⟨0, by decide⟩]).setupCount = 1) ∧
    (runModelFrom (runModel [.setupCheck true false 800 600 ⟨0, by decide⟩])
        [.frame true]).isSetup = true :=
  ⟨(claim8_theorem [.setupCheck true false 800 600 ⟨0, by decide⟩]).1,
   (claim8_theorem [.setupCheck true false 800 600 ⟨0, by decide⟩]).2.1,
   (claim8_theorem [.setupCheck true false 800 600 ⟨0, by decide⟩]).2.2.2 [.frame true] rfl⟩

end PaintersTape
